import Mathlib

/-!
Verification of the request pipeline in `src/requests.rs` of the
op-api-rust-sdk repository: URL construction, header composition, query
parameter attachment, dispatch, and response classification into either a
passed-through success response or a typed `ApiErrors` failure.

The Rust code is shallowly embedded: strings stay strings, the JSON body of
a response is modelled as an `Option Json` (the result of parsing the body
bytes; `none` is a body that is not valid JSON), serde's derived
deserializers for `ApiError` and `ApiErrors` are modelled field by field
(unknown fields skipped, duplicate or ill-typed fields rejected, missing
required fields rejected), and the open `Box<dyn Error>` failure channel is
modelled by the closed union `RequestError` of the three failure kinds the
pipeline can actually produce: transport failure at send, deserialization
failure of a non-200 body, and a well-formed `ApiErrors` payload.  The
transport (`Client::send`) is an external collaborator and is passed in as
an explicit function from the composed request to a transport outcome.
-/

/-- Model of the JSON values a response body can parse to. -/
inductive Json where
  | null : Json
  | bool : Bool → Json
  | num : Int → Json
  | str : String → Json
  | arr : List Json → Json
  | obj : List (String × Json) → Json
deriving Repr

/-- Model of the `Options` collaborator from `src/options.rs` (not under
`src/` here): per the spec it exposes three synchronous, side-effect-free
string accessors `base_url()`, `api_key()`, `authorization()`; modelled as a
record of the three strings, the accessors being the projections. -/
structure Options where
  base_url : String
  api_key : String
  authorization : String
deriving Repr, DecidableEq

/-- Single error from OP API (`struct ApiError` in `requests.rs`): four
required string fields `id`, `level`, `type` (a raw identifier in Rust),
`message`. -/
structure ApiError where
  id : String
  level : String
  type : String
  message : String
deriving Repr, DecidableEq

/-- Container for API errors from OP API (`struct ApiErrors`): an ordered
sequence of `ApiError`. -/
structure ApiErrors where
  errors : List ApiError
deriving Repr, DecidableEq

/-- Model of a `reqwest::Response`: the HTTP status code and the parse
result of the body bytes (`none` when the body is not valid JSON). The
success path never looks at `body`. -/
structure Response where
  status : Nat
  body : Option Json

/-- Model of a `reqwest::RequestBuilder` for a GET request: the target URL,
the accumulated headers in order, and the serialized query-string pairs
(`none` when no query string is attached). -/
structure RequestBuilder where
  url : String
  headers : List (String × String)
  queryParams : Option (List (String × String))

/-- Model of `Client::new().get(&request_url)`: a fresh GET builder for the
given URL with no headers and no query string attached by this layer. -/
def Client.get (url : String) : RequestBuilder :=
  { url := url, headers := [], queryParams := none }

/-- Closed union of the failures that can flow through the pipeline's
`Box<dyn Error>` channel: the transport error from the single `send`, the
decode error propagated by `?` from `response.json()`, or the typed
`ApiErrors` payload boxed by `check_errors`. -/
inductive RequestError where
  | transportError : String → RequestError
  | deserializationError : RequestError
  | apiErrors : ApiErrors → RequestError
deriving Repr, DecidableEq

/-- Partially filled `ApiError` during serde's field loop: each required
field is `none` until its first occurrence in the object. -/
structure PartialApiError where
  id : Option String
  level : Option String
  type : Option String
  message : Option String

/-- One step of serde's derived deserializer for `ApiError`: match the key
against the four field names; a known field already seen (duplicate) or
holding a non-string value is rejected; an unknown key is skipped. -/
def ApiError.applyField (acc : PartialApiError) (k : String) (v : Json) :
    Option PartialApiError :=
  if k = "id" then
    match acc.id, v with
    | none, Json.str s => some { acc with id := some s }
    | _, _ => none
  else if k = "level" then
    match acc.level, v with
    | none, Json.str s => some { acc with level := some s }
    | _, _ => none
  else if k = "type" then
    match acc.type, v with
    | none, Json.str s => some { acc with type := some s }
    | _, _ => none
  else if k = "message" then
    match acc.message, v with
    | none, Json.str s => some { acc with message := some s }
    | _, _ => none
  else some acc

/-- End of serde's field loop for `ApiError`: all four required fields must
have been seen. -/
def PartialApiError.finish : PartialApiError → Option ApiError
  | ⟨some i, some l, some t, some m⟩ => some ⟨i, l, t, m⟩
  | _ => none

/-- Field loop of serde's derived deserializer for `ApiError`: walk the
object's fields in order, threading the partial record. -/
def ApiError.fromJsonFields (fields : List (String × Json))
    (acc : PartialApiError) : Option ApiError :=
  match fields with
  | [] => acc.finish
  | (k, v) :: rest =>
    match ApiError.applyField acc k v with
    | some acc2 => ApiError.fromJsonFields rest acc2
    | none => none

/-- Derived `Deserialize` for `ApiError`: an object whose fields yield the
four required strings; anything that is not an object is rejected. -/
def ApiError.fromJson : Json → Option ApiError
  | Json.obj fields => ApiError.fromJsonFields fields ⟨none, none, none, none⟩
  | _ => none

/-- Element-wise deserialization of a JSON array into `Vec<ApiError>`,
failing at the first element that is not a well-formed `ApiError`. -/
def decodeApiErrorList : List Json → Option (List ApiError)
  | [] => some []
  | j :: rest =>
    match ApiError.fromJson j, decodeApiErrorList rest with
    | some e, some es => some (e :: es)
    | _, _ => none

/-- One step of serde's derived deserializer for `ApiErrors`: the single
field name is `errors`; a duplicate occurrence or a non-array value is
rejected, an unknown key is skipped. -/
def ApiErrors.applyField (acc : Option (List ApiError)) (k : String)
    (v : Json) : Option (Option (List ApiError)) :=
  if k = "errors" then
    match acc, v with
    | none, Json.arr items =>
      match decodeApiErrorList items with
      | some es => some (some es)
      | none => none
    | _, _ => none
  else some acc

/-- Field loop of serde's derived deserializer for `ApiErrors`: the single
required field `errors` must occur exactly once and hold an array of
well-formed `ApiError` objects; unknown keys are skipped. -/
def ApiErrors.fromJsonFields (fields : List (String × Json))
    (acc : Option (List ApiError)) : Option ApiErrors :=
  match fields with
  | [] =>
    match acc with
    | some es => some ⟨es⟩
    | none => none
  | (k, v) :: rest =>
    match ApiErrors.applyField acc k v with
    | some acc2 => ApiErrors.fromJsonFields rest acc2
    | none => none

/-- Derived `Deserialize` for `ApiErrors`. -/
def ApiErrors.fromJson : Json → Option ApiErrors
  | Json.obj fields => ApiErrors.fromJsonFields fields none
  | _ => none

/-- Model of `response.json::<ApiErrors>()`: parse the body bytes as JSON
(already reflected in `body`) and deserialize; `none` is the decode error
that `?` propagates. -/
def Response.json (r : Response) : Option ApiErrors :=
  r.body.bind ApiErrors.fromJson

/-- Escape of one character inside Rust's `Debug` rendering of a string
(the printable fragment of `char::escape_debug`, which covers every
character the pipeline's error fields use). -/
def rustEscapeChar (c : Char) : String :=
  if c = '"' then "\\\""
  else if c = '\\' then "\\\\"
  else if c = '\n' then "\\n"
  else if c = '\t' then "\\t"
  else if c = '\r' then "\\r"
  else String.singleton c

/-- Rust's `Debug` rendering of a `String`: the escaped contents between
double quotes. -/
def rustDebugStr (s : String) : String :=
  "\"" ++ String.join (s.data.map rustEscapeChar) ++ "\""

/-- Derived `Debug` rendering of one `ApiError` record (the raw identifier
`r#type` prints as the bare field name `type`). -/
def ApiError.debugFmt (e : ApiError) : String :=
  "ApiError \x7b id: " ++ rustDebugStr e.id ++
  ", level: " ++ rustDebugStr e.level ++
  ", type: " ++ rustDebugStr e.type ++
  ", message: " ++ rustDebugStr e.message ++ " \x7d"

/-- `Debug` rendering of `Vec<ApiError>`: the comma-separated element
renderings between square brackets. -/
def ApiError.listDebugFmt (es : List ApiError) : String :=
  "[" ++ String.intercalate ", " (es.map ApiError.debugFmt) ++ "]"

/-- The `fmt::Display` implementation for `ApiErrors`:
`write!(f, "API error occurred, reasons: \x7b:?\x7d", self.errors)`. -/
def ApiErrors.fmt (e : ApiErrors) : String :=
  "API error occurred, reasons: " ++ ApiError.listDebugFmt e.errors

/-- Model of Rust's `fmt::Display` capability. -/
class Display (α : Type) where
  fmt : α → String

/-- Model of Rust's `std::error::Error` capability: `Error: Debug + Display`
with no required methods of its own, so participation in error propagation
(`Box<dyn Error>`) only needs the `Display` super-capability. -/
class Error (α : Type) extends Display α

instance : Display ApiErrors := ⟨ApiErrors.fmt⟩

instance : Error ApiErrors := {}

/-- Constructs string URL from base url and API url
(`format!("\x7bbase_url\x7d\x7burl\x7d", ...)`). -/
def get_request_url (options : Options) (url : String) : String :=
  options.base_url ++ url

/-- Sets necessary headers for the request: `x-api-key`, `Authorization`
(`format!("\x7b\x7d \x7b\x7d", "Bearer", options.authorization())`), and
`Accept`. -/
def set_headers (options : Options) (builder : RequestBuilder) : RequestBuilder :=
  { builder with
    headers := builder.headers ++
      [("x-api-key", options.api_key),
       ("Authorization", "Bearer" ++ " " ++ options.authorization),
       ("Accept", "application/json")] }

/-- Sets query parameters for the request. The generic `T: Serialize` value
is modelled by its serialized key-value pairs; `RequestBuilder::query`
appends them to any query pairs already on the builder. -/
def set_query_params (query : Option (List (String × String)))
    (builder : RequestBuilder) : RequestBuilder :=
  match query with
  | some q => { builder with queryParams := some (builder.queryParams.getD [] ++ q) }
  | none => builder

/-- Checks for possible API errors from the response: status `OK` (200)
passes the response through untouched; any other status deserializes the
body as `ApiErrors` and fails with it, or fails with the decode error when
the body does not match. -/
def check_errors (response : Response) : Except RequestError Response :=
  if response.status = 200 then
    Except.ok response
  else
    match response.json with
    | some errors => Except.error (RequestError.apiErrors errors)
    | none => Except.error RequestError.deserializationError

/-- Performs GET request to API specified with url (`Requests::get`).  The
transport collaborator (`client.send().await`) is passed in explicitly as a
function from the composed request to either a response or a transport
failure string; it is consulted exactly once, and its failure is propagated
by `?` as a transport error. -/
def Requests.get (options : Options) (url : String)
    (query : Option (List (String × String)))
    (transport : RequestBuilder → Except String Response) :
    Except RequestError Response :=
  let request_url := get_request_url options url
  let builder := Client.get request_url
  let client := set_headers options (set_query_params query builder)
  match transport client with
  | Except.error e => Except.error (RequestError.transportError e)
  | Except.ok response => check_errors response

/-- The fully composed request that `Requests::get` hands to the transport:
URL built, query parameters attached, headers set. -/
def composedRequest (options : Options) (url : String)
    (query : Option (List (String × String))) : RequestBuilder :=
  set_headers options (set_query_params query (Client.get (get_request_url options url)))

/-- Canonical JSON object for an `ApiError` record: the four required
fields in declaration order, followed by arbitrary additional fields. -/
def apiErrorJson (e : ApiError) (extras : List (String × Json)) : Json :=
  Json.obj ([("id", Json.str e.id), ("level", Json.str e.level),
             ("type", Json.str e.type), ("message", Json.str e.message)] ++ extras)

/-- Parse of the spec's example body
`{"errors":[{"id":"E1","level":"error","type":"not_found","message":"missing"}]}`. -/
def json404body : Json :=
  Json.obj [("errors", Json.arr [Json.obj
    [("id", Json.str "E1"), ("level", Json.str "error"),
     ("type", Json.str "not_found"), ("message", Json.str "missing")]])]

/-- A transport collaborator whose single send attempt fails. -/
def failTransport : RequestBuilder → Except String Response :=
  fun _ => Except.error "connection refused"

/-! ## Helper lemmas about the modelled serde deserializers -/

theorem ApiError.applyField_unknown (acc : PartialApiError) (k : String) (v : Json)
    (h1 : k ≠ "id") (h2 : k ≠ "level") (h3 : k ≠ "type") (h4 : k ≠ "message") :
    ApiError.applyField acc k v = some acc := by
  simp only [ApiError.applyField, if_neg h1, if_neg h2, if_neg h3, if_neg h4]

theorem ApiError.fromJsonFields_skip (extras : List (String × Json))
    (acc : PartialApiError)
    (h : ∀ kv ∈ extras, kv.1 ≠ "id" ∧ kv.1 ≠ "level" ∧ kv.1 ≠ "type" ∧ kv.1 ≠ "message") :
    ApiError.fromJsonFields extras acc = acc.finish := by
  induction extras with
  | nil => rfl
  | cons kv rest ih =>
    obtain ⟨k, v⟩ := kv
    obtain ⟨h1, h2, h3, h4⟩ := h (k, v) (List.mem_cons_self _ _)
    simp only [ApiError.fromJsonFields, ApiError.applyField_unknown acc k v h1 h2 h3 h4]
    exact ih fun kv hkv => h kv (List.mem_cons_of_mem _ hkv)

theorem ApiError.fromJson_apiErrorJson (e : ApiError) (extras : List (String × Json))
    (h : ∀ kv ∈ extras, kv.1 ≠ "id" ∧ kv.1 ≠ "level" ∧ kv.1 ≠ "type" ∧ kv.1 ≠ "message") :
    ApiError.fromJson (apiErrorJson e extras) = some e := by
  have step : ApiError.fromJson (apiErrorJson e extras) =
      ApiError.fromJsonFields extras ⟨some e.id, some e.level, some e.type, some e.message⟩ := rfl
  rw [step, ApiError.fromJsonFields_skip extras _ h]
  rfl

theorem decodeApiErrorList_map (specs : List (ApiError × List (String × Json)))
    (h : ∀ s ∈ specs, ∀ kv ∈ s.2, kv.1 ≠ "id" ∧ kv.1 ≠ "level" ∧ kv.1 ≠ "type" ∧ kv.1 ≠ "message") :
    decodeApiErrorList (specs.map fun s => apiErrorJson s.1 s.2) = some (specs.map Prod.fst) := by
  induction specs with
  | nil => rfl
  | cons s rest ih =>
    simp only [List.map_cons, decodeApiErrorList]
    rw [ApiError.fromJson_apiErrorJson s.1 s.2 (h s (List.mem_cons_self _ _)),
        ih fun s hs => h s (List.mem_cons_of_mem _ hs)]

theorem ApiErrors.applyField_unknown_key (acc : Option (List ApiError)) (k : String)
    (v : Json) (h : k ≠ "errors") : ApiErrors.applyField acc k v = some acc := by
  simp only [ApiErrors.applyField, if_neg h]

theorem ApiErrors.fromJsonFields_skip_unknown (extras : List (String × Json))
    (es : List ApiError) (h : ∀ kv ∈ extras, kv.1 ≠ "errors") :
    ApiErrors.fromJsonFields extras (some es) = some ⟨es⟩ := by
  induction extras with
  | nil => rfl
  | cons kv rest ih =>
    obtain ⟨k, v⟩ := kv
    have h1 : k ≠ "errors" := h (k, v) (List.mem_cons_self _ _)
    simp only [ApiErrors.fromJsonFields, ApiErrors.applyField_unknown_key (some es) k v h1]
    exact ih fun kv hkv => h kv (List.mem_cons_of_mem _ hkv)

theorem ApiErrors.fromJson_canonical (specs : List (ApiError × List (String × Json)))
    (extraTop : List (String × Json))
    (hspecs : ∀ s ∈ specs, ∀ kv ∈ s.2, kv.1 ≠ "id" ∧ kv.1 ≠ "level" ∧ kv.1 ≠ "type" ∧ kv.1 ≠ "message")
    (htop : ∀ kv ∈ extraTop, kv.1 ≠ "errors") :
    ApiErrors.fromJson (Json.obj (("errors",
      Json.arr (specs.map fun s => apiErrorJson s.1 s.2)) :: extraTop)) =
    some ⟨specs.map Prod.fst⟩ := by
  show ApiErrors.fromJsonFields (("errors",
    Json.arr (specs.map fun s => apiErrorJson s.1 s.2)) :: extraTop) none = _
  simp only [ApiErrors.fromJsonFields, ApiErrors.applyField, if_pos rfl]
  rw [decodeApiErrorList_map specs hspecs]
  exact ApiErrors.fromJsonFields_skip_unknown extraTop _ htop

/-! ## Claim theorems -/

/-- C1: for every response with a non-200 status whose body deserializes as
the expected error schema, `check_errors` fails with the typed `ApiErrors`
collection wrapping the full ordered sequence of `ApiError` records exactly
as deserialized from the body. -/
theorem check_errors_wraps_api_errors (r : Response) (j : Json) (errs : ApiErrors)
    (hs : r.status ≠ 200) (hb : r.body = some j)
    (hj : ApiErrors.fromJson j = some errs) :
    check_errors r = Except.error (RequestError.apiErrors errs) := by
  have hjson : Response.json r = some errs := by
    show r.body.bind ApiErrors.fromJson = some errs
    rw [hb]
    exact hj
  unfold check_errors
  rw [if_neg hs, hjson]

/-- Witness for C1 at the spec's concrete example: a 404 response with body
`{"errors":[{"id":"E1","level":"error","type":"not_found","message":"missing"}]}`
fails with exactly one `ApiError` carrying those four field values. -/
theorem check_errors_wraps_api_errors_witness :
    ((404 : Nat) ≠ 200 ∧
      (Response.mk 404 (some json404body)).body = some json404body ∧
      ApiErrors.fromJson json404body =
        some ⟨[⟨"E1", "error", "not_found", "missing"⟩]⟩) ∧
    check_errors ⟨404, some json404body⟩ =
      Except.error (RequestError.apiErrors ⟨[⟨"E1", "error", "not_found", "missing"⟩]⟩) :=
  ⟨⟨by decide, rfl, rfl⟩,
    check_errors_wraps_api_errors ⟨404, some json404body⟩ json404body
      ⟨[⟨"E1", "error", "not_found", "missing"⟩]⟩ (by decide) rfl rfl⟩

/-- C2: for every response with HTTP status 200, `check_errors` returns the
response unchanged as the success result, for arbitrary body contents. -/
theorem check_errors_ok_passthrough (r : Response) (h : r.status = 200) :
    check_errors r = Except.ok r := by
  unfold check_errors
  rw [if_pos h]

/-- Witness for C2: a status-200 response with an arbitrary body is passed
through unchanged. -/
theorem check_errors_ok_passthrough_witness :
    (Response.mk 200 (some (Json.str "anything"))).status = 200 ∧
    check_errors ⟨200, some (Json.str "anything")⟩ =
      Except.ok ⟨200, some (Json.str "anything")⟩ :=
  ⟨rfl, check_errors_ok_passthrough ⟨200, some (Json.str "anything")⟩ rfl⟩

/-- C3: a non-200 response whose body does not match the expected error
schema makes `check_errors` fail with the deserialization error, a failure
mode distinct from the `ApiErrors` one; and every failure of `Requests.get`
is one of exactly three kinds: transport error, deserialization error, or
an `ApiErrors`-wrapped error. -/
theorem failure_mode_taxonomy :
    (∀ r : Response, r.status ≠ 200 → Response.json r = none →
      check_errors r = Except.error RequestError.deserializationError) ∧
    (∀ (opts : Options) (url : String) (query : Option (List (String × String)))
      (transport : RequestBuilder → Except String Response) (e : RequestError),
      Requests.get opts url query transport = Except.error e →
      (∃ m, e = RequestError.transportError m) ∨
      e = RequestError.deserializationError ∨
      ∃ es, e = RequestError.apiErrors es) := by
  constructor
  · intro r hs hj
    unfold check_errors
    rw [if_neg hs, hj]
  · intro opts url query transport e _
    cases e with
    | transportError m => exact Or.inl ⟨m, rfl⟩
    | deserializationError => exact Or.inr (Or.inl rfl)
    | apiErrors es => exact Or.inr (Or.inr ⟨es, rfl⟩)

/-- Witness for C3: a 500 response with a body that is not valid JSON, and
one whose JSON object lacks the `errors` key, both yield the
deserialization error and not an `ApiErrors` failure. -/
theorem failure_mode_taxonomy_witness :
    ((500 : Nat) ≠ 200 ∧ Response.json ⟨500, none⟩ = none ∧
      Response.json ⟨500, some (Json.obj [("message", Json.str "oops")])⟩ = none) ∧
    check_errors ⟨500, none⟩ = Except.error RequestError.deserializationError ∧
    check_errors ⟨500, some (Json.obj [("message", Json.str "oops")])⟩ =
      Except.error RequestError.deserializationError :=
  ⟨⟨by decide, rfl, rfl⟩,
    failure_mode_taxonomy.1 ⟨500, none⟩ (by decide) rfl,
    failure_mode_taxonomy.1 ⟨500, some (Json.obj [("message", Json.str "oops")])⟩
      (by decide) rfl⟩

/-- C4: `set_headers` appends exactly the three mandated headers — the raw
API key under `x-api-key`, the literal `Bearer` plus a single space plus
the token under `Authorization`, and the literal `application/json` under
`Accept` — touching nothing else; and the request composed by the pipeline
carries exactly those three headers and no others. -/
theorem set_headers_exactly_three :
    (∀ (opts : Options) (b : RequestBuilder),
      (set_headers opts b).headers = b.headers ++
        [("x-api-key", opts.api_key),
         ("Authorization", "Bearer" ++ " " ++ opts.authorization),
         ("Accept", "application/json")] ∧
      (set_headers opts b).url = b.url ∧
      (set_headers opts b).queryParams = b.queryParams) ∧
    (∀ (opts : Options) (url : String) (query : Option (List (String × String))),
      (composedRequest opts url query).headers =
        [("x-api-key", opts.api_key),
         ("Authorization", "Bearer" ++ " " ++ opts.authorization),
         ("Accept", "application/json")]) := by
  refine ⟨fun opts b => ⟨rfl, rfl, rfl⟩, fun opts url query => ?_⟩
  cases query <;> rfl

/-- C5: `get_request_url` is the direct string concatenation of the base
URL and the relative path, with no normalization and no slash
deduplication (a trailing slash on the base and a leading slash on the
path survive as a double slash). -/
theorem get_request_url_is_concat :
    (∀ (opts : Options) (url : String),
      get_request_url opts url = opts.base_url ++ url) ∧
    get_request_url ⟨"https://api.example.com", "key", "token"⟩ "/v1/items" =
      "https://api.example.com/v1/items" ∧
    get_request_url ⟨"https://api.example.com/", "key", "token"⟩ "/v1/items" =
      "https://api.example.com//v1/items" :=
  ⟨fun _ _ => rfl, rfl, rfl⟩

/-- C6: `set_query_params` returns the builder unchanged when the query is
absent (so the pipeline's composed request then carries no query string),
and when present attaches exactly the serialized key-value pairs as the
query string while changing nothing else about the request. -/
theorem set_query_params_frame :
    (∀ b : RequestBuilder, set_query_params none b = b) ∧
    (∀ (q : List (String × String)) (b : RequestBuilder),
      (set_query_params (some q) b).url = b.url ∧
      (set_query_params (some q) b).headers = b.headers ∧
      (set_query_params (some q) b).queryParams =
        some (b.queryParams.getD [] ++ q)) ∧
    (∀ (opts : Options) (url : String),
      (composedRequest opts url none).queryParams = none) ∧
    (∀ (opts : Options) (url : String) (q : List (String × String)),
      (composedRequest opts url (some q)).queryParams = some q) :=
  ⟨fun _ => rfl, fun _ _ => ⟨rfl, rfl, rfl⟩, fun _ _ => rfl, fun _ _ _ => rfl⟩

/-- C7: through its `std::error::Error` capability (whose `Display`
super-capability is the `fmt::Display` implementation), every `ApiErrors`
value renders as `API error occurred, reasons: [...]` with the bracketed
part listing each contained record's `id`, `level`, `type` and `message`;
at the one-error example the rendering is computed in full. -/
theorem apiErrors_display_rendering :
    (∀ e : ApiErrors, @Display.fmt ApiErrors Error.toDisplay e =
      "API error occurred, reasons: " ++
        ("[" ++ String.intercalate ", " (e.errors.map ApiError.debugFmt) ++ "]")) ∧
    @Display.fmt ApiErrors Error.toDisplay ⟨[⟨"E1", "error", "not_found", "missing"⟩]⟩ =
      "API error occurred, reasons: [ApiError \x7b id: \"E1\", level: \"error\", type: \"not_found\", message: \"missing\" \x7d]" :=
  ⟨fun _ => rfl, rfl⟩

/-- C8: `Requests.get` consults the transport exactly once, on the single
composed request: a transport failure is propagated immediately and
unchanged as the transport error with no retry and no fallback, a transport
success is handed to the classifier whose verdict is surfaced unchanged,
and the outcome depends only on the transport's answer to that one
request. -/
theorem get_single_dispatch (opts : Options) (url : String)
    (query : Option (List (String × String)))
    (transport : RequestBuilder → Except String Response) :
    (∀ e, transport (composedRequest opts url query) = Except.error e →
      Requests.get opts url query transport =
        Except.error (RequestError.transportError e)) ∧
    (∀ r, transport (composedRequest opts url query) = Except.ok r →
      Requests.get opts url query transport = check_errors r) ∧
    (∀ transport2 : RequestBuilder → Except String Response,
      transport2 (composedRequest opts url query) =
        transport (composedRequest opts url query) →
      Requests.get opts url query transport2 =
        Requests.get opts url query transport) := by
  refine ⟨?_, ?_, ?_⟩
  · intro e he
    show (match transport (composedRequest opts url query) with
      | Except.error e => Except.error (RequestError.transportError e)
      | Except.ok response => check_errors response) =
      Except.error (RequestError.transportError e)
    rw [he]
  · intro r hr
    show (match transport (composedRequest opts url query) with
      | Except.error e => Except.error (RequestError.transportError e)
      | Except.ok response => check_errors response) = check_errors r
    rw [hr]
  · intro transport2 ht
    show (match transport2 (composedRequest opts url query) with
      | Except.error e => Except.error (RequestError.transportError e)
      | Except.ok response => check_errors response) =
      (match transport (composedRequest opts url query) with
      | Except.error e => Except.error (RequestError.transportError e)
      | Except.ok response => check_errors response)
    rw [ht]

/-- Witness for C8: a transport whose single attempt fails with
`connection refused` makes `Requests.get` fail with exactly that transport
error. -/
theorem get_single_dispatch_witness :
    failTransport (composedRequest ⟨"https://api.example.com", "key", "tok"⟩
      "/v1/items" none) = Except.error "connection refused" ∧
    Requests.get ⟨"https://api.example.com", "key", "tok"⟩ "/v1/items" none
      failTransport =
      Except.error (RequestError.transportError "connection refused") :=
  ⟨rfl,
    (get_single_dispatch ⟨"https://api.example.com", "key", "tok"⟩ "/v1/items"
      none failTransport).1 "connection refused" rfl⟩

/-- C9: the empty `ApiErrors` sequence is representable and is not guarded
against: a non-200 response with body `{"errors":[]}` fails with an
`ApiErrors` result containing zero errors, not with a deserialization
failure. -/
theorem empty_api_errors_not_guarded :
    (∃ e : ApiErrors, e.errors = []) ∧
    (∀ r : Response, r.status ≠ 200 →
      r.body = some (Json.obj [("errors", Json.arr [])]) →
      check_errors r = Except.error (RequestError.apiErrors ⟨[]⟩)) := by
  refine ⟨⟨⟨[]⟩, rfl⟩, fun r hs hb => ?_⟩
  have hjson : Response.json r = some ⟨[]⟩ := by
    show r.body.bind ApiErrors.fromJson = some ⟨[]⟩
    rw [hb]
    rfl
  unfold check_errors
  rw [if_neg hs, hjson]

/-- Witness for C9: a 500 response with body `{"errors":[]}` fails with an
`ApiErrors` payload holding the empty sequence. -/
theorem empty_api_errors_not_guarded_witness :
    ((500 : Nat) ≠ 200 ∧
      (Response.mk 500 (some (Json.obj [("errors", Json.arr [])]))).body =
        some (Json.obj [("errors", Json.arr [])])) ∧
    check_errors ⟨500, some (Json.obj [("errors", Json.arr [])])⟩ =
      Except.error (RequestError.apiErrors ⟨[]⟩) :=
  ⟨⟨by decide, rfl⟩,
    empty_api_errors_not_guarded.2 ⟨500, some (Json.obj [("errors", Json.arr [])])⟩
      (by decide) rfl⟩

/-- C10: a non-200 response whose body is the expected schema with
arbitrary additional unknown fields — at the top level after `errors`, and
inside each error object after its four required string fields —
deserializes successfully, the unknown fields are silently discarded, and
the resulting `ApiErrors` failure holds exactly the four specified fields
of each error, in order. -/
theorem unknown_fields_silently_discarded (r : Response)
    (specs : List (ApiError × List (String × Json)))
    (extraTop : List (String × Json))
    (hs : r.status ≠ 200)
    (hspecs : ∀ s ∈ specs, ∀ kv ∈ s.2,
      kv.1 ≠ "id" ∧ kv.1 ≠ "level" ∧ kv.1 ≠ "type" ∧ kv.1 ≠ "message")
    (htop : ∀ kv ∈ extraTop, kv.1 ≠ "errors")
    (hb : r.body = some (Json.obj (("errors",
      Json.arr (specs.map fun s => apiErrorJson s.1 s.2)) :: extraTop))) :
    check_errors r = Except.error (RequestError.apiErrors ⟨specs.map Prod.fst⟩) := by
  have hjson : Response.json r = some ⟨specs.map Prod.fst⟩ := by
    show r.body.bind ApiErrors.fromJson = some ⟨specs.map Prod.fst⟩
    rw [hb]
    exact ApiErrors.fromJson_canonical specs extraTop hspecs htop
  unfold check_errors
  rw [if_neg hs, hjson]

/-- Witness for C10: a 400 response whose single error object carries an
extra `extra` field and whose top level carries an extra `trace` field
fails with exactly the one four-field `ApiError`, the extras discarded. -/
theorem unknown_fields_silently_discarded_witness :
    ((400 : Nat) ≠ 200 ∧
      (∀ s ∈ [((⟨"E1", "warn", "rate", "slow"⟩ : ApiError),
          [("extra", Json.num 1)])], ∀ kv ∈ s.2,
        kv.1 ≠ "id" ∧ kv.1 ≠ "level" ∧ kv.1 ≠ "type" ∧ kv.1 ≠ "message") ∧
      (∀ kv ∈ [("trace", Json.str "t1")], kv.1 ≠ "errors")) ∧
    check_errors ⟨400, some (Json.obj
      [("errors", Json.arr [Json.obj
        [("id", Json.str "E1"), ("level", Json.str "warn"),
         ("type", Json.str "rate"), ("message", Json.str "slow"),
         ("extra", Json.num 1)]]),
       ("trace", Json.str "t1")])⟩ =
      Except.error (RequestError.apiErrors ⟨[⟨"E1", "warn", "rate", "slow"⟩]⟩) := by
  constructor
  · refine ⟨by decide, ?_, ?_⟩
    · intro s hs kv hkv
      simp only [List.mem_singleton] at hs
      subst hs
      simp only [List.mem_singleton] at hkv
      subst hkv
      exact ⟨by decide, by decide, by decide, by decide⟩
    · intro kv hkv
      simp only [List.mem_singleton] at hkv
      subst hkv
      decide
  · exact unknown_fields_silently_discarded
      ⟨400, some (Json.obj
        [("errors", Json.arr [Json.obj
          [("id", Json.str "E1"), ("level", Json.str "warn"),
           ("type", Json.str "rate"), ("message", Json.str "slow"),
           ("extra", Json.num 1)]]),
         ("trace", Json.str "t1")])⟩
      [(⟨"E1", "warn", "rate", "slow"⟩, [("extra", Json.num 1)])]
      [("trace", Json.str "t1")]
      (by decide)
      (by intro s hs kv hkv
          simp only [List.mem_singleton] at hs
          subst hs
          simp only [List.mem_singleton] at hkv
          subst hkv
          exact ⟨by decide, by decide, by decide, by decide⟩)
      (by intro kv hkv
          simp only [List.mem_singleton] at hkv
          subst hkv
          decide)
      rfl
